import Mathlib

/-!
Shallow embedding of the conversion engine of `src/app.py` (a Streamlit
unit-converter application).  Numeric values are modelled as exact
rationals (`ℚ`); the network (the Frankfurter currency API) is modelled
as an explicit oracle parameter together with a request counter, and the
Streamlit session history as an explicit list threaded through the
click-handler function.
-/

namespace UnitConverter

/-- `DEFAULT_CURRENCY_UNITS` (src/app.py line 34): static fallback list of
currency codes. -/
def DEFAULT_CURRENCY_UNITS : List String :=
  ["EUR", "USD", "GBP", "JPY", "AUD", "CAD", "CHF", "CNY", "INR", "TRY", "SAR", "AED", "PKR"]

/-- `MASS` table (line 47), base = gram. -/
def MASS : List (String × ℚ) :=
  [("kg", 1000), ("g", 1), ("mg", 0.001), ("lb", 453.59237), ("oz", 28.3495)]

/-- `LENGTH` table (lines 48-49), base = meter. -/
def LENGTH : List (String × ℚ) :=
  [("km", 1000), ("m", 1), ("cm", 0.01), ("mm", 0.001), ("inch", 0.0254),
   ("ft", 0.3048), ("yd", 0.9144), ("mile", 1609.344)]

/-- `TIME` table (line 50), base = second. -/
def TIME : List (String × ℚ) :=
  [("second", 1), ("minute", 60), ("hour", 3600), ("day", 86400)]

/-- `AREA` table (line 51), base = square meter. -/
def AREA : List (String × ℚ) :=
  [("m2", 1), ("cm2", 0.0001), ("km2", 1000000), ("ft2", 0.092903), ("acre", 4046.86)]

/-- `VOLUME` table (line 52), base = liter. -/
def VOLUME : List (String × ℚ) :=
  [("liter", 1), ("ml", 0.001), ("m3", 1000), ("gallon", 3.78541)]

/-- `SPEED` table (line 53), base = m/s. -/
def SPEED : List (String × ℚ) :=
  [("m/s", 1), ("km/h", 0.277778), ("mph", 0.44704)]

/-- `MAPS` (line 55): the category-keyed dictionary of linear tables. -/
def MAPS : List (String × List (String × ℚ)) :=
  [("Mass", MASS), ("Length", LENGTH), ("Time", TIME),
   ("Area", AREA), ("Volume", VOLUME), ("Speed", SPEED)]

/-- The Python exceptions the engine can raise.  `valueErrorUnknownTempUnit`
models `ValueError("Unknown temperature unit")` (lines 86, 95); `keyError k`
models the `KeyError` raised by a failed dict subscript `d[k]` (lines 103-104);
`rateUnavailable` models any exception escaping `currency_rate` (a
`requests` network error or timeout, a non-2xx status via
`raise_for_status`, or a missing `rates` key). -/
inductive PyError where
  | valueErrorUnknownTempUnit : PyError
  | keyError : String → PyError
  | rateUnavailable : PyError
deriving DecidableEq, Repr

/-- The external rate source (the `latest?base=..&symbols=..` endpoint),
modelled as an oracle: given the index of the request within the session
and the `base`/`symbols` query parameters, it either answers with a
`(rate, date)` pair or fails (`none`).  Indexing by request count lets the
model express that every call performs a fresh request (no caching). -/
def RateSource : Type := Nat → String → String → Option (ℚ × String)

/-- Network state: how many rate requests have been issued so far. -/
structure NetState where
  calls : Nat
deriving DecidableEq, Repr

/-- `currency_rate` (lines 68-73): one GET request to the rate endpoint.
Returns `(rate, date)` on success (`data.get("date", "")` defaults the
date, which the oracle already incorporates) and fails otherwise; always
consumes one request. -/
def currency_rate (src : RateSource) (s : NetState) (from_u to_u : String) :
    Option (ℚ × String) × NetState :=
  (src s.calls from_u to_u, ⟨s.calls + 1⟩)

/-- `convert_temperature` (lines 78-95): three-branch to-Celsius /
from-Celsius formula; an unrecognised unit on either side raises
`ValueError("Unknown temperature unit")`. -/
def convert_temperature (value : ℚ) (from_u to_u : String) : Except PyError ℚ :=
  match (if from_u = "C" then some value
         else if from_u = "F" then some ((value - 32) * 5 / 9)
         else if from_u = "K" then some (value - 273.15)
         else none) with
  | none => .error .valueErrorUnknownTempUnit
  | some c =>
      if to_u = "C" then .ok c
      else if to_u = "F" then .ok (c * 9 / 5 + 32)
      else if to_u = "K" then .ok (c + 273.15)
      else .error .valueErrorUnknownTempUnit

/-- `compute_result` (lines 97-104): dispatch on the category —
Temperature first, then Currency (one rate request, date discarded),
then the generic linear-table path
`value * MAPS[category][from_u] / MAPS[category][to_u]`. -/
def compute_result (src : RateSource) (s : NetState) (value : ℚ)
    (category from_u to_u : String) : Except PyError ℚ × NetState :=
  if category = "Temperature" then
    (convert_temperature value from_u to_u, s)
  else if category = "Currency" then
    match currency_rate src s from_u to_u with
    | (some (rate, _date), s1) => (.ok (value * rate), s1)
    | (none, s1) => (.error .rateUnavailable, s1)
  else
    match MAPS.lookup category with
    | none => (.error (.keyError category), s)
    | some table =>
        match table.lookup from_u with
        | none => (.error (.keyError from_u), s)
        | some f =>
            match table.lookup to_u with
            | none => (.error (.keyError to_u), s)
            | some t => (.ok (value * f / t), s)

/-- One entry of `st.session_state.history` (lines 158-165).  The cosmetic
`Result (formatted)` string column (fixed-point rendering of the float at
the chosen precision) is not modelled; no claim concerns it and the spec
marks it as cosmetic. -/
structure Record where
  category : String
  value : ℚ
  fromU : String
  toU : String
  result : ℚ
deriving DecidableEq, Repr

/-- What the click handler displays (lines 143-167): the warning for equal
units, the success banner carrying the numeric result and the currency
rate-date meta string (empty for non-currency), or the caught exception
shown via `st.error`. -/
inductive Outcome where
  | warning : Outcome
  | success : ℚ → String → Outcome
  | errorShown : PyError → Outcome
deriving DecidableEq, Repr

/-- The `convert_clicked` handler (lines 143-167): warn when the units are
equal, otherwise run `compute_result`; for Currency, a *second*
`currency_rate` call fetches the date for the banner; append to the
history only when everything succeeded, and on any exception show the
error and leave the history untouched. -/
def convert_clicked (src : RateSource) (s : NetState) (history : List Record)
    (value : ℚ) (category from_u to_u : String) :
    Outcome × List Record × NetState :=
  if from_u = to_u then
    (.warning, history, s)
  else
    match compute_result src s value category from_u to_u with
    | (.ok result, s1) =>
        if category = "Currency" then
          match currency_rate src s1 from_u to_u with
          | (some (_rate2, date), s2) =>
              (.success result date,
               history ++ [⟨category, value, from_u, to_u, result⟩], s2)
          | (none, s2) => (.errorShown .rateUnavailable, history, s2)
        else
          (.success result "",
           history ++ [⟨category, value, from_u, to_u, result⟩], s1)
    | (.error e, s1) => (.errorShown e, history, s1)

/-- Outcome of one GET to the `currencies` endpoint: `some keys` is the
key list of the returned JSON object, `none` is any failure (network
error, malformed response, timeout). -/
def SymbolsFetch : Type := Option (List String)

/-- `fetch_currency_symbols` (lines 60-66), body only: `sorted(list(data.keys()))`
on success, the static fallback on any exception. -/
def fetch_currency_symbols (net : SymbolsFetch) : List String :=
  match net with
  | some keys => keys.insertionSort (· ≤ ·)
  | none => DEFAULT_CURRENCY_UNITS

/-- The `@st.cache_data` memoization wrapped around `fetch_currency_symbols`
(line 60): the first call in a session runs the body and caches its value,
later calls reuse the cache.  Returns the symbol list, the updated cache,
and the number of times the body (and hence the network) was invoked. -/
def fetch_currency_symbols_cached (net : SymbolsFetch)
    (cache : Option (List String)) :
    List String × Option (List String) × Nat :=
  match cache with
  | some syms => (syms, some syms, 0)
  | none =>
      let r := fetch_currency_symbols net
      (r, some r, 1)

/-- The well-formedness invariant the spec asserts of each linear table:
all scale factors strictly positive, and exactly one entry (the base
unit) with scale factor 1. -/
def table_ok (t : List (String × ℚ)) : Prop :=
  (∀ q ∈ t, 0 < q.2) ∧ (∃! q : String × ℚ, q ∈ t ∧ q.2 = 1)

/-- A concrete always-succeeding rate source used for witnesses: every
request is answered with rate 2 and a fixed date. -/
def src0 : RateSource := fun _ _ _ => some (2, "2026-10-10")

/-- A concrete always-failing rate source (unreachable endpoint). -/
def srcFail : RateSource := fun _ _ _ => none

/-- The session's initial network state: no requests issued yet. -/
def netZero : NetState := ⟨0⟩

/-! ### Helper lemmas -/

/-- A successful association-list lookup yields a member of the list. -/
theorem lookup_mem {α β : Type} [BEq α] [LawfulBEq α] {l : List (α × β)} {a : α} {b : β}
    (h : l.lookup a = some b) : (a, b) ∈ l := by
  induction l with
  | nil => simp [List.lookup] at h
  | cons p l ih =>
      obtain ⟨p1, p2⟩ := p
      rw [List.lookup] at h
      by_cases hpa : a == p1
      · simp only [hpa] at h
        have ha : a = p1 := eq_of_beq hpa
        subst ha
        cases h
        exact List.mem_cons_self _ _
      · simp only [Bool.not_eq_true] at hpa
        simp only [hpa] at h
        exact List.mem_cons_of_mem _ (ih h)

/-- The keys of `MAPS` are the six linear categories: none of them is
`"Temperature"` or `"Currency"`. -/
theorem maps_keys_ne : ∀ p ∈ MAPS, p.1 ≠ "Temperature" ∧ p.1 ≠ "Currency" := by decide

/-- Every scale factor stored in any `MAPS` table is strictly positive. -/
theorem tables_pos : ∀ p ∈ MAPS, ∀ q ∈ p.2, 0 < q.2 := by
  intro p hp
  fin_cases hp <;> (intro q hq; fin_cases hq <;> norm_num [MASS, LENGTH, TIME, AREA, VOLUME, SPEED])

/-- A factor obtained by a successful double lookup through `MAPS` is
strictly positive. -/
theorem maps_factor_pos {cat : String} {table : List (String × ℚ)} {u : String} {f : ℚ}
    (hc : MAPS.lookup cat = some table) (hu : table.lookup u = some f) : 0 < f :=
  tables_pos (cat, table) (lookup_mem hc) (u, f) (lookup_mem hu)

/-- On a linear category (a key of `MAPS`) with both units present,
`compute_result` returns `value * table[from_u] / table[to_u]` and issues
no network request. -/
theorem compute_result_linear {cat : String} {table : List (String × ℚ)}
    {from_u to_u : String} {f t : ℚ}
    (hc : MAPS.lookup cat = some table)
    (hf : table.lookup from_u = some f) (ht : table.lookup to_u = some t)
    (src : RateSource) (s : NetState) (value : ℚ) :
    compute_result src s value cat from_u to_u = (.ok (value * f / t), s) := by
  obtain ⟨hT, hC⟩ := maps_keys_ne (cat, table) (lookup_mem hc)
  simp only [compute_result, if_neg hT, if_neg hC, hc, hf, ht]

/-! ### Claim theorems -/

/-- C1: for every linear category and every pair of units present in its
table, `compute_result` returns `value * table[fromUnit] / table[toUnit]`
(fromUnit → base → toUnit via the two scale factors). -/
theorem linear_formula_correct (src : RateSource) (s : NetState) (value : ℚ)
    (cat from_u to_u : String) (table : List (String × ℚ)) (f t : ℚ)
    (hc : MAPS.lookup cat = some table)
    (hf : table.lookup from_u = some f) (ht : table.lookup to_u = some t) :
    compute_result src s value cat from_u to_u = (.ok (value * f / t), s) :=
  compute_result_linear hc hf ht src s value

theorem linear_formula_correct_witness :
    compute_result src0 netZero 1 "Mass" "kg" "g" = (.ok 1000, netZero) := by
  have h := linear_formula_correct src0 netZero 1 "Mass" "kg" "g" MASS 1000 1 rfl rfl rfl
  simpa using h

/-- C2: the Temperature branch of `compute_result` is exactly the
three-branch to-Celsius/from-Celsius `convert_temperature`, and the fixed
reference points hold: 0 C = 32 F, 32 F = 0 C, 0 C = 273.15 K,
100 C = 212 F and 100 C = 373.15 K. -/
theorem temperature_fixed_points :
    (∀ (src : RateSource) (s : NetState) (value : ℚ) (from_u to_u : String),
      compute_result src s value "Temperature" from_u to_u =
        (convert_temperature value from_u to_u, s))
  ∧ convert_temperature 0 "C" "F" = .ok 32
  ∧ convert_temperature 32 "F" "C" = .ok 0
  ∧ convert_temperature 0 "C" "K" = .ok 273.15
  ∧ convert_temperature 100 "C" "F" = .ok 212
  ∧ convert_temperature 100 "C" "K" = .ok 373.15 := by
  refine ⟨fun src s value fu tu => rfl, ?_, ?_, ?_, ?_, ?_⟩ <;>
    (simp [convert_temperature]; try norm_num)

/-- C6: converting any value from a unit to the same unit in any linear
(non-Temperature, non-Currency) category returns the value unchanged. -/
theorem same_unit_identity (src : RateSource) (s : NetState) (x : ℚ)
    (cat u : String) (table : List (String × ℚ)) (f : ℚ)
    (hc : MAPS.lookup cat = some table) (hu : table.lookup u = some f) :
    compute_result src s x cat u u = (.ok x, s) := by
  rw [compute_result_linear hc hu hu]
  rw [mul_div_cancel_right₀ x (ne_of_gt (maps_factor_pos hc hu))]

theorem same_unit_identity_witness :
    compute_result src0 netZero 5 "Mass" "kg" "kg" = (.ok 5, netZero) :=
  same_unit_identity src0 netZero 5 "Mass" "kg" MASS 1000 rfl rfl

/-- C7: for any two units of the same linear category, converting and
then converting back recovers the original value exactly (the model uses
exact rational arithmetic, so the floating-point tolerance of the claim
is met with equality). -/
theorem round_trip_exact (src : RateSource) (s : NetState) (x : ℚ)
    (cat a b : String) (table : List (String × ℚ)) (fa fb : ℚ)
    (hc : MAPS.lookup cat = some table)
    (ha : table.lookup a = some fa) (hb : table.lookup b = some fb) :
    ∃ y, compute_result src s x cat a b = (.ok y, s)
      ∧ compute_result src s y cat b a = (.ok x, s) := by
  refine ⟨x * fa / fb, compute_result_linear hc ha hb src s x, ?_⟩
  rw [compute_result_linear hc hb ha src s (x * fa / fb)]
  rw [div_mul_cancel₀ _ (ne_of_gt (maps_factor_pos hc hb)),
      mul_div_cancel_right₀ _ (ne_of_gt (maps_factor_pos hc ha))]

theorem round_trip_exact_witness :
    ∃ y, compute_result src0 netZero 3 "Mass" "kg" "g" = (.ok y, netZero)
      ∧ compute_result src0 netZero y "Mass" "g" "kg" = (.ok 3, netZero) :=
  round_trip_exact src0 netZero 3 "Mass" "kg" "g" MASS 1000 1 rfl rfl rfl

/-- C10: same-unit temperature conversion is an exact identity for each
of C, F and K: the to-Celsius and from-Celsius steps cancel. -/
theorem temperature_same_unit_identity (v : ℚ) (u : String)
    (hu : u ∈ (["C", "F", "K"] : List String)) :
    convert_temperature v u u = .ok v := by
  fin_cases hu <;> simp [convert_temperature]

theorem temperature_same_unit_identity_witness :
    convert_temperature 5 "F" "F" = .ok 5 :=
  temperature_same_unit_identity 5 "F" (by decide)

/-- C3 counterexample: the claim says a currency conversion issues a
single request to the rate source, but a successful conversion through
the click handler issues two (one inside `compute_result` for the rate,
whose date is discarded, and a second in the handler for the date). -/
theorem currency_single_request_refuted :
    (convert_clicked src0 netZero [] 1 "Currency" "EUR" "USD").2.2.calls = 2
  ∧ (2 : ℕ) ≠ 1 :=
  ⟨rfl, by decide⟩

/-- C3 amended: a successful currency conversion issues exactly two
requests to the rate source: the returned value is the input times the
rate of the first request (whose date is discarded), and the surfaced
reference date comes from the second request.  Each request consults the
source afresh (indices `s.calls` and `s.calls + 1`): rates are not
cached across calls. -/
theorem currency_conversion_two_requests (src : RateSource) (s : NetState)
    (history : List Record) (value : ℚ) (from_u to_u : String)
    (rate : ℚ) (d1 : String) (rate2 : ℚ) (d2 : String)
    (hne : from_u ≠ to_u)
    (h1 : src s.calls from_u to_u = some (rate, d1))
    (h2 : src (s.calls + 1) from_u to_u = some (rate2, d2)) :
    convert_clicked src s history value "Currency" from_u to_u =
      (.success (value * rate) d2,
       history ++ [⟨"Currency", value, from_u, to_u, value * rate⟩],
       ⟨s.calls + 1 + 1⟩) := by
  simp [convert_clicked, compute_result, currency_rate, if_neg hne, h1, h2]

theorem currency_conversion_two_requests_witness :
    convert_clicked src0 netZero [] 1 "Currency" "EUR" "USD" =
      (.success (1 * 2) "2026-10-10",
       [⟨"Currency", 1, "EUR", "USD", 1 * 2⟩], ⟨0 + 1 + 1⟩) :=
  currency_conversion_two_requests src0 netZero [] 1 "EUR" "USD"
    2 "2026-10-10" 2 "2026-10-10" (by decide) rfl rfl

/-- C4: a unit string absent from the relevant table is an error on
either side, both on the linear-table branch (a `KeyError` from the dict
subscript) and on the temperature branch (`ValueError`); an error value
is returned, never a number. -/
theorem unknown_unit_errors :
    (∀ (src : RateSource) (s : NetState) (value : ℚ) (cat from_u to_u : String)
       (table : List (String × ℚ)), MAPS.lookup cat = some table →
       (table.lookup from_u = none ∨ table.lookup to_u = none) →
       ∃ e, compute_result src s value cat from_u to_u = (.error e, s))
  ∧ (∀ (src : RateSource) (s : NetState) (value : ℚ) (from_u to_u : String),
       (from_u ∉ (["C", "F", "K"] : List String)
         ∨ to_u ∉ (["C", "F", "K"] : List String)) →
       ∃ e, compute_result src s value "Temperature" from_u to_u = (.error e, s)) := by
  constructor
  · intro src s value cat from_u to_u table hc hbad
    obtain ⟨hT, hC⟩ := maps_keys_ne (cat, table) (lookup_mem hc)
    rcases hbad with h | h
    · exact ⟨.keyError from_u, by
        simp only [compute_result, if_neg hT, if_neg hC, hc, h]⟩
    · cases hf : table.lookup from_u with
      | none => exact ⟨.keyError from_u, by
          simp only [compute_result, if_neg hT, if_neg hC, hc, hf]⟩
      | some f => exact ⟨.keyError to_u, by
          simp only [compute_result, if_neg hT, if_neg hC, hc, hf, h]⟩
  · intro src s value from_u to_u hbad
    have hdisp : compute_result src s value "Temperature" from_u to_u =
        (convert_temperature value from_u to_u, s) := rfl
    refine ⟨.valueErrorUnknownTempUnit, ?_⟩
    rw [hdisp]
    rcases hbad with h | h
    · simp only [List.mem_cons, List.not_mem_nil, or_false, not_or] at h
      obtain ⟨h1, h2, h3⟩ := h
      simp [convert_temperature, h1, h2, h3]
    · simp only [List.mem_cons, List.not_mem_nil, or_false, not_or] at h
      obtain ⟨h1, h2, h3⟩ := h
      by_cases hf1 : from_u = "C"
      · simp [convert_temperature, hf1, h1, h2, h3]
      · by_cases hf2 : from_u = "F"
        · simp [convert_temperature, hf1, hf2, h1, h2, h3]
        · by_cases hf3 : from_u = "K"
          · simp [convert_temperature, hf1, hf2, hf3, h1, h2, h3]
          · simp [convert_temperature, hf1, hf2, hf3]

theorem unknown_unit_errors_witness :
    (∃ e, compute_result src0 netZero 1 "Mass" "stone" "g" = (.error e, netZero))
  ∧ (∃ e, compute_result src0 netZero 1 "Temperature" "C" "R" = (.error e, netZero)) :=
  ⟨unknown_unit_errors.1 src0 netZero 1 "Mass" "stone" "g" MASS rfl (Or.inl rfl),
   unknown_unit_errors.2 src0 netZero 1 "C" "R" (Or.inr (by decide))⟩

/-- C5: when the rate source fails (unreachable or no rate for the
pair), the click handler shows the rate-unavailable error and leaves the
history exactly as it was; the session state is otherwise untouched and
the handler returns normally. -/
theorem rate_failure_leaves_history (src : RateSource) (s : NetState)
    (history : List Record) (value : ℚ) (from_u to_u : String)
    (hne : from_u ≠ to_u) (hfail : src s.calls from_u to_u = none) :
    convert_clicked src s history value "Currency" from_u to_u =
      (.errorShown .rateUnavailable, history, ⟨s.calls + 1⟩) := by
  simp [convert_clicked, compute_result, currency_rate, if_neg hne, hfail]

theorem rate_failure_leaves_history_witness :
    convert_clicked srcFail netZero [] 1 "Currency" "EUR" "USD" =
      (.errorShown .rateUnavailable, [], ⟨0 + 1⟩) :=
  rate_failure_leaves_history srcFail netZero [] 1 "EUR" "USD" (by decide) rfl

/-- C8: the symbol list falls back to the static 13-code list on any
fetch failure without surfacing an error (the function returns a plain
list), and the `st.cache_data` memoization runs the body exactly once per
session: any later call reuses the cached list, invoking the network
zero further times, whatever the network would answer then. -/
theorem symbols_fallback_and_cache :
    fetch_currency_symbols none = DEFAULT_CURRENCY_UNITS
  ∧ DEFAULT_CURRENCY_UNITS =
      ["EUR", "USD", "GBP", "JPY", "AUD", "CAD", "CHF", "CNY", "INR", "TRY", "SAR", "AED", "PKR"]
  ∧ DEFAULT_CURRENCY_UNITS.length = 13
  ∧ (∀ net : SymbolsFetch, (fetch_currency_symbols_cached net none).2.2 = 1)
  ∧ (∀ net net2 : SymbolsFetch,
      fetch_currency_symbols_cached net2 (fetch_currency_symbols_cached net none).2.1 =
        ((fetch_currency_symbols_cached net none).1,
         (fetch_currency_symbols_cached net none).2.1, 0)) :=
  ⟨rfl, rfl, rfl, fun _ => rfl, fun _ _ => rfl⟩

/-- C9: each of the six linear tables has all scale factors strictly
positive and exactly one entry with scale factor 1 (its base unit). -/
theorem tables_base_unit_invariant :
    table_ok MASS ∧ table_ok LENGTH ∧ table_ok TIME ∧ table_ok AREA
  ∧ table_ok VOLUME ∧ table_ok SPEED := by
  refine ⟨⟨?_, ?_⟩, ⟨?_, ?_⟩, ⟨?_, ?_⟩, ⟨?_, ?_⟩, ⟨?_, ?_⟩, ⟨?_, ?_⟩⟩
  · intro q hq; fin_cases hq <;> norm_num [MASS]
  · exact ⟨("g", 1), ⟨by simp [MASS], rfl⟩, by
      rintro ⟨u, f⟩ ⟨hm, h1⟩
      fin_cases hm <;> first | rfl | norm_num at h1⟩
  · intro q hq; fin_cases hq <;> norm_num [LENGTH]
  · exact ⟨("m", 1), ⟨by simp [LENGTH], rfl⟩, by
      rintro ⟨u, f⟩ ⟨hm, h1⟩
      fin_cases hm <;> first | rfl | norm_num at h1⟩
  · intro q hq; fin_cases hq <;> norm_num [TIME]
  · exact ⟨("second", 1), ⟨by simp [TIME], rfl⟩, by
      rintro ⟨u, f⟩ ⟨hm, h1⟩
      fin_cases hm <;> first | rfl | norm_num at h1⟩
  · intro q hq; fin_cases hq <;> norm_num [AREA]
  · exact ⟨("m2", 1), ⟨by simp [AREA], rfl⟩, by
      rintro ⟨u, f⟩ ⟨hm, h1⟩
      fin_cases hm <;> first | rfl | norm_num at h1⟩
  · intro q hq; fin_cases hq <;> norm_num [VOLUME]
  · exact ⟨("liter", 1), ⟨by simp [VOLUME], rfl⟩, by
      rintro ⟨u, f⟩ ⟨hm, h1⟩
      fin_cases hm <;> first | rfl | norm_num at h1⟩
  · intro q hq; fin_cases hq <;> norm_num [SPEED]
  · exact ⟨("m/s", 1), ⟨by simp [SPEED], rfl⟩, by
      rintro ⟨u, f⟩ ⟨hm, h1⟩
      fin_cases hm <;> first | rfl | norm_num at h1⟩

end UnitConverter
